import Mathlib

/-
  Verification development for the MediaApp ingestion pipeline
  (GoArmGo/MediaApp). The Go sources are shallowly embedded:

  * internal/domain/photo.go           — the Photo record and queue payload
  * internal/usecase/photo_interactor.go — GetOrCreatePhotoByUnsplashID and
    SearchAndSavePhotos, embedded over an environment of collaborator
    oracles (PhotoStorage / PhotoFetcher / FileStorage / UserStorage),
    with an explicit effect log recording every collaborator interaction
  * internal/rabbitmq/client.go        — PublishPhotoSearchRequest and the
    consumer loop body of StartConsumingPhotoSearchRequests
  * internal/handler/handler.go        — the search handler's parameter
    clamping that builds the published payload
  * cmd/mediaapp/main.go               — the worker message handler and the
    uploadLimiter semaphore (modelled as a transition system with the
    buffered-channel send/receive semantics)
  * internal/database/storage/photo_postgres.go — SavePhoto with the
    INSERT ... ON CONFLICT (unsplash_id) DO NOTHING statement, over a
    table model (photos.unsplash_id is UNIQUE NOT NULL in the schema)

  Go UUIDs are modelled as Nat (0 is uuid.Nil), time.Time as Nat,
  io streams are dropped (only their content type and status matter),
  and each distinct Go error-construction site becomes a distinct
  constructor of an error type.
-/

namespace MediaApp

/-- internal/domain/photo.go: Tag record (id, name). -/
structure Tag where
  id : Nat
  name : String
deriving DecidableEq, Repr

/-- internal/domain/photo.go: the Photo record, one field per Go struct
field; uuid.UUID and time.Time are modelled as Nat. -/
structure Photo where
  id : Nat
  unsplashID : String
  userID : Nat
  s3URL : String
  title : String
  description : String
  authorName : String
  width : Int
  height : Int
  likesCount : Int
  originalURL : String
  uploadedAt : Nat
  viewsCount : Int
  downloadsCount : Int
  createdAt : Nat
  updatedAt : Nat
  tags : List Tag
deriving DecidableEq, Repr

/-- internal/messaging/payloads: the queue wire payload
(query, page, per_page). -/
structure PhotoSearchPayload where
  query : String
  page : Int
  perPage : Int
deriving DecidableEq, Repr

/-- Outcome of photoStorage.GetPhotosByUnsplashIDFromDB, which in Go
returns (photo, err): found is (p, nil); the Postgres implementation maps
sql.ErrNoRows to (nil, nil) (notFoundNil) while the use case also
tolerates (nil, sql.ErrNoRows) (notFoundErr); any other error is a
failure. -/
inductive LookupResult where
  | found (p : Photo)
  | notFoundNil
  | notFoundErr
  | failure (e : String)
deriving DecidableEq, Repr

/-- Outcome of photoFetcher.FetchPhotoByIDFromExternal: (photo, nil),
(nil, nil), or (nil, err). -/
inductive FetchResult where
  | ok (p : Photo)
  | notFound
  | failure (e : String)
deriving DecidableEq, Repr

/-- Outcome of http.Get on the original URL: a response with a status
code and Content-Type header, or a transport error. -/
inductive DownloadResult where
  | ok (status : Nat) (contentType : String)
  | failure (e : String)
deriving DecidableEq, Repr

/-- Outcome of fileStorage.UploadFile: the S3 URL or an error. -/
inductive UploadResult where
  | ok (url : String)
  | failure (e : String)
deriving DecidableEq, Repr

/-- Outcome of userStorage.GetOrCreateSystemUser. -/
inductive SysUserResult where
  | ok (uid : Nat)
  | failure (e : String)
deriving DecidableEq, Repr

/-- Outcome of photoStorage.SavePhoto; on success the stored photo is
returned because the Go implementation may mutate the record through the
pointer (assigning a fresh ID when it is uuid.Nil). -/
inductive SaveResult where
  | ok (stored : Photo)
  | failure (e : String)
deriving DecidableEq, Repr

/-- Outcome of photoFetcher.SearchPhotosFromExternal. -/
inductive SearchExtResult where
  | ok (photos : List Photo)
  | failure (e : String)
deriving DecidableEq, Repr

/-- The collaborator environment of the use case: one oracle per port
method used by photo_interactor.go. -/
structure Env where
  lookup : String → LookupResult
  fetch : String → FetchResult
  httpGet : String → DownloadResult
  upload : String → String → UploadResult
  getOrCreateSystemUser : SysUserResult
  save : Photo → SaveResult
  searchExternal : String → Int → Int → SearchExtResult

/-- One collaborator interaction, recorded in the effect log in the
order the Go code performs the calls. -/
inductive Effect where
  | storeLookup (unsplashID : String)
  | sourceFetch (unsplashID : String)
  | httpDownload (url : String)
  | blobUpload (key : String) (contentType : String)
  | systemUserResolve
  | storeSave (unsplashID : String)
  | externalSearch (query : String) (page perPage : Int)
deriving DecidableEq, Repr

/-- Error taxonomy of the use case: one constructor per distinct
fmt.Errorf return site in photo_interactor.go. -/
inductive UCErr where
  | dedupLookupFailed (cause : String)
  | sourceFetchFailed (unsplashID : String) (cause : String)
  | sourceNotFound (unsplashID : String)
  | binaryDownloadFailed (url : String) (cause : String)
  | unexpectedDownloadStatus (status : Nat)
  | blobUploadFailed (unsplashID : String) (cause : String)
  | accountResolutionFailed (cause : String)
  | persistFailed (unsplashID : String) (cause : String)
  | searchFailed (cause : String)
  | batchAccountResolutionFailed (cause : String)
deriving DecidableEq, Repr

/-- internal/usecase/photo_interactor.go, GetOrCreatePhotoByUnsplashID:
look up locally; if found return the stored record; otherwise fetch from
the external API, download the binary, upload to S3 under the key
derived from the Unsplash ID, resolve the system user, persist, return.
The second component is the effect log of collaborator calls. -/
def getOrCreatePhotoByUnsplashID (env : Env) (unsplashID : String) :
    Except UCErr Photo × List Effect :=
  let log0 : List Effect := [.storeLookup unsplashID]
  match env.lookup unsplashID with
  | .failure e => (.error (.dedupLookupFailed e), log0)
  | .found p => (.ok p, log0)
  | .notFoundNil | .notFoundErr =>
    let log1 := log0 ++ [.sourceFetch unsplashID]
    match env.fetch unsplashID with
    | .failure e => (.error (.sourceFetchFailed unsplashID e), log1)
    | .notFound => (.error (.sourceNotFound unsplashID), log1)
    | .ok up =>
      let log2 := log1 ++ [.httpDownload up.originalURL]
      match env.httpGet up.originalURL with
      | .failure e => (.error (.binaryDownloadFailed up.originalURL e), log2)
      | .ok status ctype =>
        if status ≠ 200 then (.error (.unexpectedDownloadStatus status), log2)
        else
          let contentType := if ctype = "" then "application/octet-stream" else ctype
          let s3Key := "unsplash-photos/" ++ up.unsplashID
          let log3 := log2 ++ [.blobUpload s3Key contentType]
          match env.upload s3Key contentType with
          | .failure e => (.error (.blobUploadFailed up.unsplashID e), log3)
          | .ok s3URL =>
            let up1 := { up with s3URL := s3URL }
            let log4 := log3 ++ [.systemUserResolve]
            match env.getOrCreateSystemUser with
            | .failure e => (.error (.accountResolutionFailed e), log4)
            | .ok uid =>
              let up2 := { up1 with userID := uid }
              let log5 := log4 ++ [.storeSave up2.unsplashID]
              match env.save up2 with
              | .failure e => (.error (.persistFailed up2.unsplashID e), log5)
              | .ok stored => (.ok stored, log5)

/-- The body of the per-result loop of SearchAndSavePhotos
(photo_interactor.go lines 162-216): dedup lookup, then download,
upload, attach owner, persist; any failure skips the item (none). -/
def processItem (env : Env) (systemUserID : Nat) (photo : Photo) :
    Option Photo × List Effect :=
  match env.lookup photo.unsplashID with
  | .failure _ => (none, [.storeLookup photo.unsplashID])
  | .found existing => (some existing, [.storeLookup photo.unsplashID])
  | .notFoundNil | .notFoundErr =>
    match env.httpGet photo.originalURL with
    | .failure _ =>
        (none, [.storeLookup photo.unsplashID, .httpDownload photo.originalURL])
    | .ok status ctype =>
      if status ≠ 200 then
        (none, [.storeLookup photo.unsplashID, .httpDownload photo.originalURL])
      else
        let contentType := if ctype = "" then "application/octet-stream" else ctype
        let s3Key := "unsplash-photos/" ++ photo.unsplashID
        match env.upload s3Key contentType with
        | .failure _ =>
            (none, [.storeLookup photo.unsplashID, .httpDownload photo.originalURL,
                    .blobUpload s3Key contentType])
        | .ok s3URL =>
          let photo1 := { photo with s3URL := s3URL, userID := systemUserID }
          match env.save photo1 with
          | .failure _ =>
              (none, [.storeLookup photo.unsplashID, .httpDownload photo.originalURL,
                      .blobUpload s3Key contentType, .storeSave photo.unsplashID])
          | .ok stored =>
              (some stored, [.storeLookup photo.unsplashID, .httpDownload photo.originalURL,
                             .blobUpload s3Key contentType, .storeSave photo.unsplashID])

/-- internal/usecase/photo_interactor.go, SearchAndSavePhotos: normalize
perPage (default 3 when non-positive) and page (default 1), search the
external API, resolve the system user once for the batch, then process
every result independently, appending saved-or-existing records. -/
def searchAndSavePhotos (env : Env) (query : String) (page perPage : Int) :
    Except UCErr (List Photo) × List Effect :=
  let perPage1 := if perPage ≤ 0 then 3 else perPage
  let page1 := if page ≤ 0 then 1 else page
  let log0 : List Effect := [.externalSearch query page1 perPage1]
  match env.searchExternal query page1 perPage1 with
  | .failure e => (.error (.searchFailed e), log0)
  | .ok externalPhotos =>
    if externalPhotos.length = 0 then (.ok [], log0)
    else
      let log1 := log0 ++ [.systemUserResolve]
      match env.getOrCreateSystemUser with
      | .failure e => (.error (.batchAccountResolutionFailed e), log1)
      | .ok uid =>
        let folded := externalPhotos.foldl
          (fun acc photo =>
            let step := processItem env uid photo
            (acc.1 ++ (match step.1 with | some p => [p] | none => []),
             acc.2 ++ step.2))
          ([], log1)
        (.ok folded.1, folded.2)

/-- The three broker operations a delivery can end with
(msg.Nack(false,false), msg.Nack(false,true), msg.Ack(false)). -/
inductive TerminalAction where
  | ackMsg
  | nackRequeue
  | nackNoRequeue
deriving DecidableEq, Repr

/-- internal/rabbitmq/client.go, the per-message body of the
StartConsumingPhotoSearchRequests loop: json.Unmarshal the payload
(the decoder is the collaborator oracle, none meaning failure); on
decode failure Nack without requeue; on handler error Nack with
requeue; on handler success Ack. -/
def processDelivery (decode : String → Option PhotoSearchPayload)
    (handler : PhotoSearchPayload → Except String Unit) (body : String) :
    TerminalAction :=
  match decode body with
  | none => .nackNoRequeue
  | some payload =>
    match handler payload with
    | .error _ => .nackRequeue
    | .ok _ => .ackMsg

/-- The consumer loop over a sequence of delivered message bodies: one
terminal action per delivery, in order. -/
def consumeDeliveries (decode : String → Option PhotoSearchPayload)
    (handler : PhotoSearchPayload → Except String Unit)
    (bodies : List String) : List TerminalAction :=
  bodies.map (processDelivery decode handler)

/-- The publish timeout of PublishPhotoSearchRequest:
context.WithTimeout(ctx, 5*time.Second). -/
def publishTimeoutSeconds : Nat := 5

/-- context.WithTimeout semantics over absolute deadlines: the child
deadline is now + d capped by the parent deadline when one exists. -/
def withTimeout (now : Nat) (parentDeadline : Option Nat) (d : Nat) : Nat :=
  match parentDeadline with
  | none => now + d
  | some t => min t (now + d)

/-- One channel.PublishWithContext attempt: the serialized body and the
absolute deadline of the context it was given. -/
structure BrokerAttempt where
  body : String
  deadline : Nat
deriving DecidableEq, Repr

/-- Errors of PublishPhotoSearchRequest: the json.Marshal failure site
and the PublishWithContext failure site. -/
inductive PublishError where
  | marshalFailed (cause : String)
  | publishFailed (cause : String)
deriving DecidableEq, Repr

/-- Collaborators of PublishPhotoSearchRequest: the JSON encoder and the
broker channel (taking the body and the context deadline). -/
structure PublishEnv where
  marshal : PhotoSearchPayload → Except String String
  transport : String → Nat → Except String Unit

/-- Result of a publish call: the returned error value, the broker
attempts made, and whether the task ended up enqueued (an erroring
publish does not enqueue). -/
structure PublishOutput where
  result : Except PublishError Unit
  attempts : List BrokerAttempt
  enqueued : Bool
deriving Repr

/-- internal/rabbitmq/client.go, PublishPhotoSearchRequest: marshal the
payload (returning before any broker interaction on failure), then
publish under a context bounded by publishTimeoutSeconds. -/
def publishPhotoSearchRequest (env : PublishEnv) (now : Nat)
    (callerDeadline : Option Nat) (payload : PhotoSearchPayload) :
    PublishOutput :=
  match env.marshal payload with
  | .error e => ⟨.error (.marshalFailed e), [], false⟩
  | .ok body =>
    let dl := withTimeout now callerDeadline publishTimeoutSeconds
    match env.transport body dl with
    | .error e => ⟨.error (.publishFailed e), [⟨body, dl⟩], false⟩
    | .ok _ => ⟨.ok (), [⟨body, dl⟩], true⟩

/-- internal/handler/handler.go lines 114-118: the page query parameter,
parsed with strconv.Atoi (none = parse error); on error or a
non-positive value the default 1 is used. -/
def searchHandlerPage (raw : Option Int) : Int :=
  match raw with
  | none => 1
  | some page => if page ≤ 0 then 1 else page

/-- internal/handler/handler.go lines 120-124: the per_page query
parameter; on parse error, a non-positive value, or a value above 100
the default 3 is used. -/
def searchHandlerPerPage (raw : Option Int) : Int :=
  match raw with
  | none => 3
  | some perPage => if perPage ≤ 0 ∨ perPage > 100 then 3 else perPage

/-- internal/handler/handler.go lines 130-134: the payload the search
handler builds from the clamped parameters and hands to
PublishPhotoSearchRequest. -/
def searchHandlerPayload (query : String) (pageRaw perPageRaw : Option Int) :
    PhotoSearchPayload :=
  { query := query
    page := searchHandlerPage pageRaw
    perPage := searchHandlerPerPage perPageRaw }

/-- cmd/mediaapp/main.go lines 185-196, the worker's messageHandler: it
invokes SearchAndSavePhotos at the payload's query, page and perPage
exactly as delivered, returning the engine's error as the handler
failure signal. The engine is the closed-over use case, passed here as
a function. -/
def messageHandler (searchAndSave : String → Int → Int → Except UCErr (List Photo))
    (payload : PhotoSearchPayload) : Except UCErr Unit :=
  match searchAndSave payload.query payload.page payload.perPage with
  | .error e => .error e
  | .ok _ => .ok ()

/-- cmd/mediaapp/main.go: const maxConcurrentUploads = 5, the capacity
of the uploadLimiter buffered channel. -/
def maxConcurrentUploads : Nat := 5

/-- The phase of one guarded HTTP request with respect to the
uploadLimiter semaphore: launched but not yet at the select, blocked in
the select, holding a slot (executing the guarded body), or finished
(slot released, or the wait abandoned by timeout/cancellation). -/
inductive TaskState where
  | idle
  | waiting
  | holding
  | done
deriving DecidableEq, Repr

/-- The number of tasks currently executing the guarded body, i.e. the
number of struct objects buffered in the uploadLimiter channel. -/
def holdersCount (ts : List TaskState) : Nat :=
  ts.countP (fun t => t = .holding)

/-- Transition system of the uploadLimiter (a buffered channel of
capacity cap): a task reaches the select (startWait); a send on the
channel succeeds only while the buffer holds fewer than cap elements
(acquire); a waiting task abandons the wait on context cancellation or
on the 1-second timeout of the search endpoint (abortWait); a holder
releases its slot on every exit path of the guarded body (release). -/
inductive GateStep (cap : Nat) : List TaskState → List TaskState → Prop where
  | startWait (ts : List TaskState) (i : Nat) (h : ts.get? i = some .idle) :
      GateStep cap ts (ts.set i .waiting)
  | acquire (ts : List TaskState) (i : Nat) (h : ts.get? i = some .waiting)
      (hcap : holdersCount ts < cap) :
      GateStep cap ts (ts.set i .holding)
  | abortWait (ts : List TaskState) (i : Nat) (h : ts.get? i = some .waiting) :
      GateStep cap ts (ts.set i .done)
  | release (ts : List TaskState) (i : Nat) (h : ts.get? i = some .holding) :
      GateStep cap ts (ts.set i .done)

/-- Reachability from an initial task configuration under GateStep. -/
inductive GateReachable (cap : Nat) (init : List TaskState) :
    List TaskState → Prop where
  | refl : GateReachable cap init init
  | step {s s' : List TaskState} (hr : GateReachable cap init s)
      (hs : GateStep cap s s') : GateReachable cap init s'

/-- uuid.Nil in the Nat model of UUIDs. -/
def nilUUID : Nat := 0

/-- Semantics of INSERT ... ON CONFLICT (unsplash_id) DO NOTHING over
the photos table (unsplash_id is UNIQUE NOT NULL in the schema): when a
row with the same unsplash_id exists the statement does nothing,
otherwise the row is appended. -/
def insertPhotoOnConflictDoNothing (rows : List Photo) (p : Photo) :
    List Photo :=
  if rows.any (fun r => r.unsplashID = p.unsplashID) then rows
  else rows ++ [p]

/-- internal/database/storage/photo_postgres.go, SavePhoto: assign a
fresh UUID when the record's ID is uuid.Nil, then execute the
ON CONFLICT DO NOTHING insert; dbUp models whether NamedExecContext
itself fails (connection-level error). On success the new table and the
(possibly ID-assigned) photo are returned. -/
def savePhoto (dbUp : Bool) (freshID : Nat) (rows : List Photo)
    (photo : Photo) : Except String (List Photo × Photo) :=
  let photo1 := if photo.id = nilUUID then { photo with id := freshID } else photo
  if dbUp then .ok (insertPhotoOnConflictDoNothing rows photo1, photo1)
  else .error "ошибка при сохранении фото"

/-- A concrete photo record used to exercise the definitions. -/
def photoA : Photo :=
  { id := 1, unsplashID := "uA", userID := 0, s3URL := "", title := "tA",
    description := "dA", authorName := "alice", width := 100, height := 80,
    likesCount := 3, originalURL := "http://img/a", uploadedAt := 10,
    viewsCount := 5, downloadsCount := 2, createdAt := 0, updatedAt := 0,
    tags := [] }

/-- A second concrete photo (its download will fail in envC2). -/
def photoB : Photo :=
  { photoA with id := 2, unsplashID := "uB", originalURL := "http://img/b" }

/-- A third concrete photo. -/
def photoC : Photo :=
  { photoA with id := 3, unsplashID := "uC", originalURL := "http://img/c" }

/-- The record already stored for external ID uA in envC4. -/
def photoStoredA : Photo :=
  { photoA with userID := 9, s3URL := "http://s3/old" }

/-- A duplicate of photoA: same unsplash_id, different content. -/
def photoD : Photo :=
  { photoA with id := 4, title := "different" }

/-- A concrete collaborator environment: nothing stored locally, the
external search returns three photos, and the binary download fails for
photoB's URL only. -/
def envC2 : Env :=
  { lookup := fun _ => .notFoundNil
    fetch := fun _ => .notFound
    httpGet := fun url =>
      if url = "http://img/b" then .failure "connection reset"
      else .ok 200 "image/jpeg"
    upload := fun _ _ => .ok "http://s3/url"
    getOrCreateSystemUser := .ok 7
    save := fun p => .ok p
    searchExternal := fun _ _ _ => .ok [photoA, photoB, photoC] }

/-- envC2 with every local lookup hitting the stored photoA. -/
def envFound : Env :=
  { envC2 with lookup := fun _ => .found photoA }

/-- envC2 with external ID uA already present in the store. -/
def envC4 : Env :=
  { envC2 with lookup := fun unsplashID =>
      if unsplashID = "uA" then .found photoStoredA else .notFoundNil }

/-- A concrete queue payload. -/
def payload0 : PhotoSearchPayload := { query := "cats", page := 1, perPage := 3 }

/-- A publish environment whose JSON encoder fails. -/
def pubEnvBad : PublishEnv :=
  { marshal := fun _ => .error "enc", transport := fun _ _ => .ok () }

/-
  Helper lemmas shared by the claim theorems.
-/

/-- Unfolding of the SearchAndSavePhotos accumulation loop: starting the
fold from (acc, lg), the saved photos are acc extended with the
filterMap of the per-item results and the log is lg extended with the
concatenation of the per-item logs. -/
theorem foldl_processItem (env : Env) (uid : Nat) (ps : List Photo)
    (acc : List Photo) (lg : List Effect) :
    ps.foldl (fun acc photo =>
        let step := processItem env uid photo
        (acc.1 ++ (match step.1 with | some p => [p] | none => []),
         acc.2 ++ step.2))
      (acc, lg) =
    (acc ++ ps.filterMap (fun p => (processItem env uid p).1),
     lg ++ ps.flatMap (fun p => (processItem env uid p).2)) := by
  induction ps generalizing acc lg with
  | nil => simp
  | cons p ps ih =>
    simp only [List.foldl_cons, List.filterMap_cons, List.flatMap_cons, ih]
    cases h : (processItem env uid p).1 <;> simp [h]

/-- When the external search and the system-user resolution succeed,
SearchAndSavePhotos returns exactly the per-item results that were not
skipped, in source order. -/
theorem searchAndSave_ok_filterMap (env : Env) (query : String)
    (page perPage : Int) (ps : List Photo) (uid : Nat)
    (hsearch : env.searchExternal query (if page ≤ 0 then 1 else page)
        (if perPage ≤ 0 then 3 else perPage) = .ok ps)
    (hsys : env.getOrCreateSystemUser = .ok uid) :
    (searchAndSavePhotos env query page perPage).1 =
      .ok (ps.filterMap (fun p => (processItem env uid p).1)) := by
  by_cases hlen : ps.length = 0
  · rw [List.length_eq_zero] at hlen
    subst hlen
    simp [searchAndSavePhotos, hsearch]
  · simp [searchAndSavePhotos, hsearch, hlen, hsys, foldl_processItem]

/-- Setting a position to a value the predicate rejects cannot increase
a countP. -/
theorem countP_set_le_of_neg (p : TaskState → Bool) (ts : List TaskState)
    (i : Nat) (v : TaskState) (hv : p v = false) :
    (ts.set i v).countP p ≤ ts.countP p := by
  induction ts generalizing i with
  | nil => simp
  | cons a as ih =>
    cases i with
    | zero => simp [List.countP_cons, hv]
    | succ n =>
      simp only [List.set, List.countP_cons]
      have := ih n
      omega

/-- Setting a position increases a countP by at most one. -/
theorem countP_set_le_succ (p : TaskState → Bool) (ts : List TaskState)
    (i : Nat) (v : TaskState) :
    (ts.set i v).countP p ≤ ts.countP p + 1 := by
  induction ts generalizing i with
  | nil => simp
  | cons a as ih =>
    cases i with
    | zero => simp [List.countP_cons]; split <;> split <;> omega
    | succ n =>
      simp only [List.set, List.countP_cons]
      have := ih n
      omega

/-- Every single GateStep preserves the bound on the number of tasks in
the guarded body: only acquire can increase it, and acquire is enabled
only below capacity. -/
theorem holdersCount_step {cap : Nat} {s s' : List TaskState}
    (h : GateStep cap s s') (hs : holdersCount s ≤ cap) :
    holdersCount s' ≤ cap := by
  cases h with
  | startWait i hi =>
    exact le_trans (countP_set_le_of_neg _ s i _ (by decide)) hs
  | abortWait i hi =>
    exact le_trans (countP_set_le_of_neg _ s i _ (by decide)) hs
  | release i hi =>
    exact le_trans (countP_set_le_of_neg _ s i _ (by decide)) hs
  | acquire i hi hcap =>
    have := countP_set_le_succ (fun t => t = .holding) s i .holding
    unfold holdersCount at *
    omega

/-- In the initial configuration no task holds a slot. -/
theorem holdersCount_replicate_idle (n : Nat) :
    holdersCount (List.replicate n .idle) = 0 := by
  induction n with
  | zero => rfl
  | succ k ih =>
    simp only [List.replicate, holdersCount, List.countP_cons] at *
    simp [ih]

/-
  Claim theorems.
-/

/-- C1: for every delivered queue message the consumer takes exactly one
terminal action — processDelivery returns a single TerminalAction value,
one per delivery: Nack without requeue when deserialization fails, Nack
with requeue when the handler errs, Ack when the handler succeeds — and
the three actions are pairwise distinct, so no delivery is both
acknowledged and rejected. -/
theorem consumer_exactly_one_terminal_action
    (decode : String → Option PhotoSearchPayload)
    (handler : PhotoSearchPayload → Except String Unit) (body : String) :
    (decode body = none →
      processDelivery decode handler body = .nackNoRequeue) ∧
    (∀ p e, decode body = some p → handler p = .error e →
      processDelivery decode handler body = .nackRequeue) ∧
    (∀ p, decode body = some p → handler p = .ok () →
      processDelivery decode handler body = .ackMsg) ∧
    (∀ bodies, (consumeDeliveries decode handler bodies).length = bodies.length) ∧
    (TerminalAction.ackMsg ≠ .nackRequeue ∧ TerminalAction.ackMsg ≠ .nackNoRequeue ∧
     TerminalAction.nackRequeue ≠ .nackNoRequeue) := by
  refine ⟨?_, ?_, ?_, ?_, by decide⟩
  · intro h; simp [processDelivery, h]
  · intro p e hd hh; simp [processDelivery, hd, hh]
  · intro p hd hh; simp [processDelivery, hd, hh]
  · intro bodies; simp [consumeDeliveries]

/-- C1 witness: a malformed body under a decoder that rejects everything
is rejected without requeue. -/
theorem consumer_exactly_one_terminal_action_witness :
    processDelivery (fun _ => none) (fun _ => .ok ()) "notjson" =
      .nackNoRequeue :=
  (consumer_exactly_one_terminal_action (fun _ => none) (fun _ => .ok ())
    "notjson").1 rfl

/-- C2: once the external search and the batch system-user resolution
have succeeded, SearchAndSavePhotos never errors for the batch: it
returns exactly the per-item results, where each item is processed
independently (a failing item contributes none and is skipped while the
remaining items are kept), and the output length is at most the length
of the search-result list. -/
theorem batch_per_item_failure_isolation (env : Env) (query : String)
    (page perPage : Int) (ps : List Photo) (uid : Nat)
    (hsearch : env.searchExternal query (if page ≤ 0 then 1 else page)
        (if perPage ≤ 0 then 3 else perPage) = .ok ps)
    (hsys : env.getOrCreateSystemUser = .ok uid) :
    (searchAndSavePhotos env query page perPage).1 =
      .ok (ps.filterMap (fun p => (processItem env uid p).1)) ∧
    (ps.filterMap (fun p => (processItem env uid p).1)).length ≤ ps.length :=
  ⟨searchAndSave_ok_filterMap env query page perPage ps uid hsearch hsys,
   List.length_filterMap_le _ _⟩

/-- C2 witness: a 3-item search result where item 2's download fails
yields exactly the records of items 1 and 3, no batch error. -/
theorem batch_per_item_failure_isolation_witness :
    envC2.searchExternal "cats" (if (1 : Int) ≤ 0 then 1 else 1)
        (if (3 : Int) ≤ 0 then 3 else 3) = .ok [photoA, photoB, photoC] ∧
    envC2.getOrCreateSystemUser = .ok 7 ∧
    ((searchAndSavePhotos envC2 "cats" 1 3).1 =
      .ok ([photoA, photoB, photoC].filterMap
        (fun p => (processItem envC2 7 p).1)) ∧
     ([photoA, photoB, photoC].filterMap
        (fun p => (processItem envC2 7 p).1)).length ≤
       [photoA, photoB, photoC].length) ∧
    [photoA, photoB, photoC].filterMap (fun p => (processItem envC2 7 p).1) =
      [{ photoA with s3URL := "http://s3/url", userID := 7 },
       { photoC with s3URL := "http://s3/url", userID := 7 }] :=
  ⟨rfl, rfl,
   batch_per_item_failure_isolation envC2 "cats" 1 3 [photoA, photoB, photoC] 7
     rfl rfl,
   by decide⟩

/-- C3: when the store lookup finds an existing record,
GetOrCreatePhotoByUnsplashID returns that stored record and its effect
log is exactly the one store lookup — no source fetch, no binary
download, no blob upload, no system-account resolution, no store
write. -/
theorem resolve_fast_path_no_side_calls (env : Env) (unsplashID : String)
    (p : Photo) (h : env.lookup unsplashID = .found p) :
    getOrCreatePhotoByUnsplashID env unsplashID =
      (.ok p, [.storeLookup unsplashID]) ∧
    ∀ eff ∈ (getOrCreatePhotoByUnsplashID env unsplashID).2,
      (∀ s, eff ≠ .sourceFetch s) ∧ (∀ u, eff ≠ .httpDownload u) ∧
      (∀ k c, eff ≠ .blobUpload k c) ∧ eff ≠ .systemUserResolve ∧
      (∀ s, eff ≠ .storeSave s) := by
  have h1 : getOrCreatePhotoByUnsplashID env unsplashID =
      (.ok p, [.storeLookup unsplashID]) := by
    simp [getOrCreatePhotoByUnsplashID, h]
  refine ⟨h1, ?_⟩
  rw [h1]
  intro eff heff
  simp at heff
  subst heff
  refine ⟨?_, ?_, ?_, ?_, ?_⟩ <;> intros <;> simp

/-- C3 witness: with photoA stored for every ID, resolving uZ returns
photoA after the single lookup. -/
theorem resolve_fast_path_no_side_calls_witness :
    envFound.lookup "uZ" = .found photoA ∧
    (getOrCreatePhotoByUnsplashID envFound "uZ" =
      (.ok photoA, [.storeLookup "uZ"]) ∧
     ∀ eff ∈ (getOrCreatePhotoByUnsplashID envFound "uZ").2,
       (∀ s, eff ≠ .sourceFetch s) ∧ (∀ u, eff ≠ .httpDownload u) ∧
       (∀ k c, eff ≠ .blobUpload k c) ∧ eff ≠ .systemUserResolve ∧
       (∀ s, eff ≠ .storeSave s)) :=
  ⟨rfl, resolve_fast_path_no_side_calls envFound "uZ" photoA rfl⟩

/-- C4: an item of the search-result list whose external ID already has
a stored record contributes exactly that existing record to the batch
output, with a per-item effect log of just the dedup lookup — no
download, no upload, no persist for that item. -/
theorem batch_dedup_existing_record (env : Env) (query : String)
    (page perPage : Int) (ps : List Photo) (uid : Nat)
    (photo existing : Photo)
    (hsearch : env.searchExternal query (if page ≤ 0 then 1 else page)
        (if perPage ≤ 0 then 3 else perPage) = .ok ps)
    (hsys : env.getOrCreateSystemUser = .ok uid)
    (hmem : photo ∈ ps)
    (hfound : env.lookup photo.unsplashID = .found existing) :
    processItem env uid photo =
      (some existing, [.storeLookup photo.unsplashID]) ∧
    ∃ saved, (searchAndSavePhotos env query page perPage).1 = .ok saved ∧
      existing ∈ saved := by
  have hitem : processItem env uid photo =
      (some existing, [.storeLookup photo.unsplashID]) := by
    simp [processItem, hfound]
  refine ⟨hitem, ?_⟩
  refine ⟨ps.filterMap (fun p => (processItem env uid p).1), ?_, ?_⟩
  · exact searchAndSave_ok_filterMap env query page perPage ps uid hsearch hsys
  · rw [List.mem_filterMap]
    exact ⟨photo, hmem, by rw [hitem]⟩

/-- C4 witness: uA is already stored (photoStoredA), so the batch output
contains photoStoredA and the uA item's log is the lookup alone. -/
theorem batch_dedup_existing_record_witness :
    envC4.searchExternal "cats" (if (1 : Int) ≤ 0 then 1 else 1)
        (if (3 : Int) ≤ 0 then 3 else 3) = .ok [photoA, photoB, photoC] ∧
    envC4.lookup photoA.unsplashID = .found photoStoredA ∧
    (processItem envC4 7 photoA =
      (some photoStoredA, [.storeLookup photoA.unsplashID]) ∧
     ∃ saved, (searchAndSavePhotos envC4 "cats" 1 3).1 = .ok saved ∧
       photoStoredA ∈ saved) :=
  ⟨rfl, by decide,
   batch_dedup_existing_record envC4 "cats" 1 3 [photoA, photoB, photoC] 7
     photoA photoStoredA rfl rfl (by decide) (by decide)⟩

/-- C5: for every environment and query, SearchAndSavePhotos with
page = 0 and perPage = 0 is identical — same result and same
collaborator calls, including the normalized page = 1, perPage = 3
handed to the external search — to the call with page = 1 and
perPage = 3. -/
theorem searchAndSave_normalization_boundary (env : Env) (query : String) :
    searchAndSavePhotos env query 0 0 = searchAndSavePhotos env query 1 3 := by
  simp [searchAndSavePhotos]

/-- C6: PublishPhotoSearchRequest surfaces failures synchronously: a
serialization failure returns the error with no broker attempt at all
(nothing enqueued), a transport failure returns the error with nothing
enqueued, and every broker attempt carries a context deadline at most
publishTimeoutSeconds (5 s) past the call instant, whatever the
caller's own deadline. -/
theorem publish_failure_synchronous_and_bounded (env : PublishEnv)
    (now : Nat) (callerDeadline : Option Nat) (payload : PhotoSearchPayload) :
    (∀ e, env.marshal payload = .error e →
      publishPhotoSearchRequest env now callerDeadline payload =
        ⟨.error (.marshalFailed e), [], false⟩) ∧
    (∀ body e, env.marshal payload = .ok body →
      env.transport body (withTimeout now callerDeadline publishTimeoutSeconds) =
        .error e →
      (publishPhotoSearchRequest env now callerDeadline payload).result =
        .error (.publishFailed e) ∧
      (publishPhotoSearchRequest env now callerDeadline payload).enqueued =
        false) ∧
    (∀ a ∈ (publishPhotoSearchRequest env now callerDeadline payload).attempts,
      a.deadline ≤ now + publishTimeoutSeconds) := by
  refine ⟨?_, ?_, ?_⟩
  · intro e h; simp [publishPhotoSearchRequest, h]
  · intro body e hm ht
    simp [publishPhotoSearchRequest, hm, ht]
  · intro a ha
    unfold publishPhotoSearchRequest at ha
    cases hm : env.marshal payload with
    | error e => simp [hm] at ha
    | ok body =>
      simp only [hm] at ha
      cases ht : env.transport body
          (withTimeout now callerDeadline publishTimeoutSeconds) with
      | error e =>
        simp [ht] at ha
        subst ha
        cases callerDeadline <;> simp [withTimeout]
      | ok u =>
        simp [ht] at ha
        subst ha
        cases callerDeadline <;> simp [withTimeout]

/-- C6 witness: an encoder failure returns the marshal error with zero
broker attempts and nothing enqueued. -/
theorem publish_failure_synchronous_and_bounded_witness :
    pubEnvBad.marshal payload0 = .error "enc" ∧
    publishPhotoSearchRequest pubEnvBad 0 none payload0 =
      ⟨.error (.marshalFailed "enc"), [], false⟩ :=
  ⟨rfl,
   (publish_failure_synchronous_and_bounded pubEnvBad 0 none payload0).1
     "enc" rfl⟩

/-- C7: every payload the search handler publishes satisfies page ≥ 1
and 0 < perPage ≤ 100 (out-of-range inputs are clamped to the defaults
before publishing), while the worker's message handler invokes the
engine at exactly the delivered payload's query, page and perPage,
performing no clamping of its own. -/
theorem searchtask_payload_bounds_producer_clamped :
    (∀ q pr ppr, 1 ≤ (searchHandlerPayload q pr ppr).page ∧
      0 < (searchHandlerPayload q pr ppr).perPage ∧
      (searchHandlerPayload q pr ppr).perPage ≤ 100) ∧
    (∀ f payload, messageHandler f payload =
      (f payload.query payload.page payload.perPage).map (fun _ => ())) := by
  constructor
  · intro q pr ppr
    refine ⟨?_, ?_, ?_⟩ <;>
      simp only [searchHandlerPayload, searchHandlerPage, searchHandlerPerPage] <;>
      rcases pr with _ | page <;> rcases ppr with _ | perPage <;>
      simp <;> split <;> omega
  · intro f payload
    unfold messageHandler
    cases f payload.query payload.page payload.perPage <;> simp [Except.map]

/-- C8: after a local-store miss, a source-side not-found (fetcher
returns no photo and no error) yields the sourceNotFound outcome while
a source-side transport or auth error yields the sourceFetchFailed
outcome, and the two error values are never equal — the failure kinds
are distinguishable in the operation's result. -/
theorem resolve_notfound_distinct_from_fetch_error (env : Env)
    (unsplashID : String)
    (hmiss : env.lookup unsplashID = .notFoundNil ∨
             env.lookup unsplashID = .notFoundErr) :
    (∀ e, env.fetch unsplashID = .failure e →
      (getOrCreatePhotoByUnsplashID env unsplashID).1 =
        .error (.sourceFetchFailed unsplashID e)) ∧
    (env.fetch unsplashID = .notFound →
      (getOrCreatePhotoByUnsplashID env unsplashID).1 =
        .error (.sourceNotFound unsplashID)) ∧
    (∀ e, (UCErr.sourceNotFound unsplashID) ≠
      .sourceFetchFailed unsplashID e) := by
  refine ⟨?_, ?_, ?_⟩
  · intro e hf
    rcases hmiss with h | h <;> simp [getOrCreatePhotoByUnsplashID, h, hf]
  · intro hf
    rcases hmiss with h | h <;> simp [getOrCreatePhotoByUnsplashID, h, hf]
  · intro e
    simp

/-- C8 witness: in envC2 the lookup misses and the fetcher reports
not-found, so resolving uQ yields sourceNotFound, which differs from
every sourceFetchFailed value. -/
theorem resolve_notfound_distinct_from_fetch_error_witness :
    envC2.lookup "uQ" = .notFoundNil ∧
    (getOrCreatePhotoByUnsplashID envC2 "uQ").1 =
      .error (.sourceNotFound "uQ") ∧
    (UCErr.sourceNotFound "uQ") ≠ .sourceFetchFailed "uQ" "timeout" :=
  ⟨rfl,
   (resolve_notfound_distinct_from_fetch_error envC2 "uQ" (Or.inl rfl)).2.1 rfl,
   (resolve_notfound_distinct_from_fetch_error envC2 "uQ" (Or.inl rfl)).2.2
     "timeout"⟩

/-- C9: in every configuration reachable from n launched tasks (in
particular n = capacity + 1) under the uploadLimiter transition system,
the number of tasks simultaneously executing the guarded body never
exceeds maxConcurrentUploads: a blocked task may wait, abort on the
bounded-wait timeout, or abort on cancellation, but acquire is enabled
only below capacity. -/
theorem admission_gate_never_exceeds_capacity (n : Nat)
    (s : List TaskState)
    (h : GateReachable maxConcurrentUploads (List.replicate n .idle) s) :
    holdersCount s ≤ maxConcurrentUploads := by
  induction h with
  | refl => simp [holdersCount_replicate_idle]
  | step hr hs ih => exact holdersCount_step hs ih

/-- C9 witness: with 6 launched tasks, the state where task 0 has
acquired a slot is reachable and satisfies the bound. -/
theorem admission_gate_never_exceeds_capacity_witness :
    GateReachable maxConcurrentUploads (List.replicate 6 .idle)
      (((List.replicate 6 TaskState.idle).set 0 .waiting).set 0 .holding) ∧
    holdersCount
      (((List.replicate 6 TaskState.idle).set 0 .waiting).set 0 .holding) ≤
      maxConcurrentUploads := by
  have hreach : GateReachable maxConcurrentUploads (List.replicate 6 .idle)
      (((List.replicate 6 TaskState.idle).set 0 .waiting).set 0 .holding) :=
    .step (.step .refl (.startWait _ 0 rfl)) (.acquire _ 0 rfl (by decide))
  exact ⟨hreach, admission_gate_never_exceeds_capacity 6 _ hreach⟩

/-- C10: saving a photo whose unsplash_id already exists in the photos
table succeeds, leaves the table — in particular the existing row —
completely unchanged, and reports no error: the ON CONFLICT
(unsplash_id) DO NOTHING insert makes duplicate saves no-ops. -/
theorem savePhoto_duplicate_is_noop_success (freshID : Nat)
    (rows : List Photo) (photo r : Photo)
    (hmem : r ∈ rows) (hid : r.unsplashID = photo.unsplashID) :
    ∃ stored, savePhoto true freshID rows photo = .ok (rows, stored) ∧
      stored.unsplashID = photo.unsplashID := by
  have hany : rows.any (fun row => row.unsplashID =
      (if photo.id = nilUUID then { photo with id := freshID }
       else photo).unsplashID) = true := by
    rw [List.any_eq_true]
    refine ⟨r, hmem, ?_⟩
    split <;> simp [hid]
  refine ⟨if photo.id = nilUUID then { photo with id := freshID } else photo,
    ?_, ?_⟩
  · simp [savePhoto, insertPhotoOnConflictDoNothing, hany]
  · split <;> rfl

/-- C10 witness: saving photoD (same unsplash_id as the stored photoA)
into the one-row table succeeds and leaves the table as it was. -/
theorem savePhoto_duplicate_is_noop_success_witness :
    photoA ∈ [photoA] ∧ photoA.unsplashID = photoD.unsplashID ∧
    ∃ stored, savePhoto true 99 [photoA] photoD = .ok ([photoA], stored) ∧
      stored.unsplashID = photoD.unsplashID :=
  ⟨List.mem_singleton.mpr rfl, by decide,
   savePhoto_duplicate_is_noop_success 99 [photoA] photoD photoA
     (List.mem_singleton.mpr rfl) (by decide)⟩

end MediaApp
